import Mathlib

/-!
# window-border: the overlay tracker of `main.go`

A shallow embedding of `src/main.go`: the border set (`newBorderSet`,
`BorderSet.Destroy`, `destroyWindow`), the creation of one overlay
(`createOverlayWindow`), the foreground query (`getActiveWindowRect`) and
the body of the `for` loop of `main` (`tick`).

Conventions.

* Go `int` is taken as the 64-bit signed integer of the windows/amd64 target
  and `int32` as the 32-bit one; both are `Int` with explicit wrap-around
  (`wrapInt`, `wrapInt32`).  `syscall.Handle` and `uintptr` are `Nat`.
* The host windowing system is external.  Its answers are parameters: the
  `n`-th call of `createOverlayWindow` receives the answers `plat n`
  (`CreateAnswers`), and each loop iteration receives the answers of its
  foreground query (`QueryAnswers`).
* The calls that decide the claims are recorded, in program order, in
  `World.trace`: window creation (with the value `CreateWindowExW`
  returned), `DestroyWindow`, `GetForegroundWindow` and `time.Sleep`.  The
  device-context, bitmap and brush calls of `createOverlayWindow` only
  decide its control flow here; `log.Println` is not recorded.
-/

namespace WindowBorder

/-- Window handle: `syscall.Handle` (a `uintptr`); `0` is the null handle. -/
abbrev Handle := Nat

/-- Wrap-around of Go `int` arithmetic (64-bit two's complement). -/
def wrapInt (n : Int) : Int := (n + 2 ^ 63) % 2 ^ 64 - 2 ^ 63

/-- Wrap-around of Go `int32` arithmetic. -/
def wrapInt32 (n : Int) : Int := (n + 2 ^ 31) % 2 ^ 32 - 2 ^ 31

/-- The type invariant of an `int32` value. -/
def isInt32 (n : Int) : Prop := -(2 ^ 31) ≤ n ∧ n < 2 ^ 31

instance (n : Int) : Decidable (isInt32 n) := by
  unfold isInt32; exact inferInstance

/-- The struct `Rect` (`Left, Top, Right, Bottom int32`). -/
structure Rect where
  Left : Int
  Top : Int
  Right : Int
  Bottom : Int
deriving DecidableEq, Repr

/-- The four fields of a `Rect` are `int32` values. -/
def Rect.wellTyped (r : Rect) : Prop :=
  isInt32 r.Left ∧ isInt32 r.Top ∧ isInt32 r.Right ∧ isInt32 r.Bottom

instance (r : Rect) : Decidable r.wellTyped := by
  unfold Rect.wellTyped; exact inferInstance

/-- The constant `THICKNESS = 5`. -/
def THICKNESS : Int := 5

/-- The struct `BorderSet` (`top, bottom, left, right syscall.Handle`). -/
structure BorderSet where
  top : Handle
  bottom : Handle
  left : Handle
  right : Handle
deriving DecidableEq, Repr

/-- A recorded call.  `CreateWindowExW x y width height hwnd` is the call
made at the start of `createOverlayWindow(x, y, width, height)`, with the Go
`int` arguments of that function and the handle the call returned. -/
inductive Call where
  | CreateWindowExW (x y width height : Int) (hwnd : Handle)
  | DestroyWindow (h : Handle)
  | GetForegroundWindow (handle : Handle)
  | Sleep (ms : Nat)
deriving DecidableEq, Repr

/-- What the platform returns to the calls of one `createOverlayWindow`:
`CreateWindowExW`, `GetDC`, `CreateCompatibleDC`, `CreateCompatibleBitmap`,
`SelectObject`, `CreateSolidBrush`, `FillRect`, `UpdateLayeredWindow`. -/
structure CreateAnswers where
  hwnd : Nat
  screenDC : Nat
  memDC : Nat
  hBitmap : Nat
  prevBitmap : Nat
  hBrush : Nat
  fillRet : Nat
  updateRet : Nat
deriving DecidableEq, Repr

/-- What the platform returns to one `getActiveWindowRect`: the result of
`GetForegroundWindow`, and the result and the rectangle written by
`GetWindowRect`. -/
structure QueryAnswers where
  handle : Nat
  ret : Nat
  rect : Rect
deriving DecidableEq, Repr

/-- The part of the outside world the program acts on: the calls recorded so
far and the number of `createOverlayWindow` calls made so far. -/
structure World where
  trace : List Call
  nCreate : Nat
deriving DecidableEq, Repr

/-- Record one call. -/
def World.call (w : World) (c : Call) : World :=
  { w with trace := w.trace ++ [c] }

/-- The error returns of `createOverlayWindow`, one per `fmt.Errorf`. -/
inductive CreateError where
  | createWindow
  | getScreenDC
  | createCompatibleDC
  | createCompatibleBitmap
  | selectBitmap
  | createSolidBrush
  | fillRect
  | updateLayeredWindow
deriving DecidableEq, Repr

/-- The value `^uintptr(0)`. -/
def allOnes : Nat := 2 ^ 64 - 1

/-- The function `createOverlayWindow`: `CreateWindowExW`, then the steps that
paint the window; every failure after the window exists calls
`DestroyWindow(hwnd)` before returning the error. -/
def createOverlayWindow (plat : Nat → CreateAnswers) (x y width height : Int)
    (w : World) : Except CreateError Handle × World :=
  let a := plat w.nCreate
  let w1 : World :=
    { trace := w.trace ++ [Call.CreateWindowExW x y width height a.hwnd],
      nCreate := w.nCreate + 1 }
  if a.hwnd = 0 then (Except.error CreateError.createWindow, w1)
  else if a.screenDC = 0 then
    (Except.error CreateError.getScreenDC, w1.call (Call.DestroyWindow a.hwnd))
  else if a.memDC = 0 then
    (Except.error CreateError.createCompatibleDC, w1.call (Call.DestroyWindow a.hwnd))
  else if a.hBitmap = 0 then
    (Except.error CreateError.createCompatibleBitmap, w1.call (Call.DestroyWindow a.hwnd))
  else if a.prevBitmap = 0 ∨ a.prevBitmap = allOnes then
    (Except.error CreateError.selectBitmap, w1.call (Call.DestroyWindow a.hwnd))
  else if a.hBrush = 0 then
    (Except.error CreateError.createSolidBrush, w1.call (Call.DestroyWindow a.hwnd))
  else if a.fillRet = 0 then
    (Except.error CreateError.fillRect, w1.call (Call.DestroyWindow a.hwnd))
  else if a.updateRet = 0 then
    (Except.error CreateError.updateLayeredWindow, w1.call (Call.DestroyWindow a.hwnd))
  else (Except.ok a.hwnd, w1)

/-- The helper `destroyWindow(handles ...)`: one `DestroyWindow` per non-zero
handle, in argument order. -/
def destroyWindow : List Handle → World → World
  | [], w => w
  | h :: hs, w =>
    destroyWindow hs (if h ≠ 0 then w.call (Call.DestroyWindow h) else w)

/-- The function `newBorderSet`. -/
def newBorderSet (plat : Nat → CreateAnswers) (x y width height : Int)
    (w : World) : Except CreateError BorderSet × World :=
  match createOverlayWindow plat (wrapInt (x - THICKNESS)) (wrapInt (y - THICKNESS))
      (wrapInt (width + 2 * THICKNESS)) THICKNESS w with
  | (Except.error err, w1) => (Except.error err, w1)
  | (Except.ok top, w1) =>
    match createOverlayWindow plat (wrapInt (x - THICKNESS)) (wrapInt (y + height))
        (wrapInt (width + 2 * THICKNESS)) THICKNESS w1 with
    | (Except.error err, w2) => (Except.error err, destroyWindow [top] w2)
    | (Except.ok bottom, w2) =>
      match createOverlayWindow plat (wrapInt (x - THICKNESS)) y THICKNESS height w2 with
      | (Except.error err, w3) => (Except.error err, destroyWindow [top, bottom] w3)
      | (Except.ok left, w3) =>
        match createOverlayWindow plat (wrapInt (x + width)) y THICKNESS height w3 with
        | (Except.error err, w4) =>
          (Except.error err, destroyWindow [top, bottom, left] w4)
        | (Except.ok right, w4) =>
          (Except.ok { top := top, bottom := bottom, left := left, right := right }, w4)

/-- The method `(*BorderSet).Destroy`: destroys the four windows and resets
the four handle fields to `0`. -/
def BorderSet.Destroy (b : BorderSet) (w : World) : BorderSet × World :=
  ({ top := 0, bottom := 0, left := 0, right := 0 },
   destroyWindow [b.top, b.bottom, b.left, b.right] w)

/-- The result tuple `(handle, x, y, width, height, ok)` of
`getActiveWindowRect`. -/
structure Active where
  handle : Handle
  x : Int
  y : Int
  width : Int
  height : Int
  ok : Bool
deriving DecidableEq, Repr

/-- The function `getActiveWindowRect`. -/
def getActiveWindowRect (q : QueryAnswers) (w : World) : Active × World :=
  let w1 := w.call (Call.GetForegroundWindow q.handle)
  if q.handle = 0 then (⟨0, 0, 0, 0, 0, false⟩, w1)
  else if q.ret = 0 then (⟨0, 0, 0, 0, 0, false⟩, w1)
  else
    (⟨q.handle, q.rect.Left, q.rect.Top,
      wrapInt32 (q.rect.Right - q.rect.Left),
      wrapInt32 (q.rect.Bottom - q.rect.Top), true⟩, w1)

/-- The local variables of `main` that live across loop iterations, and the
world. -/
structure Tracker where
  currentBorders : Option BorderSet
  prevHandle : Handle
  prevX : Int
  prevY : Int
  prevWidth : Int
  prevHeight : Int
  world : World
deriving DecidableEq, Repr

/-- The state of `main` when the loop is entered. -/
def Tracker.init : Tracker :=
  { currentBorders := none, prevHandle := 0, prevX := 0, prevY := 0,
    prevWidth := 0, prevHeight := 0, world := { trace := [], nCreate := 0 } }

/-- The step `if currentBorders != nil { currentBorders.Destroy(); currentBorders = nil }`,
as the world it leaves. -/
def destroyCurrent (cb : Option BorderSet) (w : World) : World :=
  match cb with
  | some b => (b.Destroy w).2
  | none => w

/-- One iteration of the `for` loop of `main`.  Both `continue` statements
jump to the next iteration, past `time.Sleep`. -/
def tick (plat : Nat → CreateAnswers) (q : QueryAnswers) (s : Tracker) : Tracker :=
  match getActiveWindowRect q s.world with
  | (a, w0) =>
    if !a.ok then
      { s with currentBorders := none, world := destroyCurrent s.currentBorders w0 }
    else if a.handle ≠ s.prevHandle ∨ a.x ≠ s.prevX ∨ a.y ≠ s.prevY
        ∨ a.width ≠ s.prevWidth ∨ a.height ≠ s.prevHeight then
      match newBorderSet plat a.x a.y a.width a.height
          (destroyCurrent s.currentBorders w0) with
      | (Except.error _, w2) => { s with currentBorders := none, world := w2 }
      | (Except.ok newBorders, w2) =>
        { currentBorders := some newBorders, prevHandle := a.handle,
          prevX := a.x, prevY := a.y, prevWidth := a.width, prevHeight := a.height,
          world := w2.call (Call.Sleep 100) }
    else { s with world := w0.call (Call.Sleep 100) }

/-- The loop of `main` run over the answers of successive foreground
queries, one iteration per answer. -/
def run (plat : Nat → CreateAnswers) : List QueryAnswers → Tracker → Tracker
  | [], s => s
  | q :: qs, s => run plat qs (tick plat q s)

/-- The effect of one recorded call on the windows alive on the platform:
a successful `CreateWindowExW` adds its window and `DestroyWindow`, taken to
succeed, removes one window with that handle.  Handles are not assumed to be
fresh: the live windows are kept with multiplicity. -/
def liveStep (l : List Handle) : Call → List Handle
  | Call.CreateWindowExW _ _ _ _ hwnd => if hwnd = 0 then l else hwnd :: l
  | Call.DestroyWindow h => l.erase h
  | Call.GetForegroundWindow _ => l
  | Call.Sleep _ => l

/-- The windows created by the program that are alive after a trace. -/
def live (t : List Call) : List Handle := t.foldl liveStep []

/-- The rectangles `(x, y, width, height)` of the overlay creations in a
trace, in order. -/
def creations : List Call → List (Int × Int × Int × Int)
  | [] => []
  | Call.CreateWindowExW x y width height _ :: t => (x, y, width, height) :: creations t
  | _ :: t => creations t

/-- The handles passed to `DestroyWindow` in a trace, in order. -/
def destroys : List Call → List Handle
  | [] => []
  | Call.DestroyWindow h :: t => h :: destroys t
  | _ :: t => destroys t

/-- The handles returned by the overlay creations in a trace, in order. -/
def created : List Call → List Handle
  | [] => []
  | Call.CreateWindowExW _ _ _ _ hwnd :: t => hwnd :: created t
  | _ :: t => created t

/-- The answers with which `createOverlayWindow` reaches its last `return`. -/
def CreateAnswers.succeeds (a : CreateAnswers) : Prop :=
  a.hwnd ≠ 0 ∧ a.screenDC ≠ 0 ∧ a.memDC ≠ 0 ∧ a.hBitmap ≠ 0
    ∧ a.prevBitmap ≠ 0 ∧ a.prevBitmap ≠ allOnes ∧ a.hBrush ≠ 0
    ∧ a.fillRet ≠ 0 ∧ a.updateRet ≠ 0

instance (a : CreateAnswers) : Decidable a.succeeds := by
  unfold CreateAnswers.succeeds; exact inferInstance

/-- A platform on which every step of every creation succeeds; the `n`-th
window gets the handle `1000 + n`. -/
def platOk (n : Nat) : CreateAnswers :=
  { hwnd := 1000 + n, screenDC := 1, memDC := 1, hBitmap := 1, prevBitmap := 1,
    hBrush := 1, fillRet := 1, updateRet := 1 }

/-- Like `platOk`, except that the call with index `k` fails in
`UpdateLayeredWindow`, after its window was created. -/
def platFailAt (k : Nat) (n : Nat) : CreateAnswers :=
  if n = k then { platOk n with updateRet := 0 } else platOk n

/-- A foreground query answering window `h` with rectangle `r`. -/
def focus (h : Handle) (r : Rect) : QueryAnswers :=
  { handle := h, ret := 1, rect := r }

/-- A foreground query answering that there is no foreground window. -/
def noFocus : QueryAnswers :=
  { handle := 0, ret := 0, rect := ⟨0, 0, 0, 0⟩ }

/-- The tracker holds either no border set and no live window, or a border
set whose four non-zero handles are exactly the live windows. -/
def Tracker.noPartial (s : Tracker) : Prop :=
  match s.currentBorders with
  | none => live s.world.trace = []
  | some b =>
    live s.world.trace = [b.right, b.left, b.bottom, b.top]
      ∧ b.top ≠ 0 ∧ b.bottom ≠ 0 ∧ b.left ≠ 0 ∧ b.right ≠ 0

/-- The `DestroyWindow` call `createOverlayWindow` makes on a failure after
its window exists: none when `CreateWindowExW` itself returned `0`. -/
def cleanup (a : CreateAnswers) : List Call :=
  if a.hwnd = 0 then [] else [Call.DestroyWindow a.hwnd]

/-! ## Integer wrap-around -/

theorem wrapInt_eq (n : Int) (h1 : -(2 ^ 63) ≤ n) (h2 : n < 2 ^ 63) : wrapInt n = n := by
  unfold wrapInt; omega

theorem wrapInt32_isInt32 (n : Int) : isInt32 (wrapInt32 n) := by
  unfold wrapInt32 isInt32; omega

/-! ## One overlay -/

theorem createOverlayWindow_ok (plat : Nat → CreateAnswers) (x y width height : Int)
    (t : List Call) (n : Nat) (h : (plat n).succeeds) :
    createOverlayWindow plat x y width height { trace := t, nCreate := n } =
      (Except.ok (plat n).hwnd,
       { trace := t ++ [Call.CreateWindowExW x y width height (plat n).hwnd],
         nCreate := n + 1 }) := by
  obtain ⟨h1, h2, h3, h4, h5, h6, h7, h8, h9⟩ := h
  simp [createOverlayWindow, h1, h2, h3, h4, h5, h6, h7, h8, h9]

theorem createOverlayWindow_fail (plat : Nat → CreateAnswers) (x y width height : Int)
    (t : List Call) (n : Nat) (h : ¬ (plat n).succeeds) :
    ∃ e, createOverlayWindow plat x y width height { trace := t, nCreate := n } =
      (Except.error e,
       { trace := t ++
           (Call.CreateWindowExW x y width height (plat n).hwnd :: cleanup (plat n)),
         nCreate := n + 1 }) := by
  unfold createOverlayWindow cleanup
  simp only [World.call]
  by_cases h1 : (plat n).hwnd = 0
  · exact ⟨CreateError.createWindow, by simp [h1]⟩
  by_cases h2 : (plat n).screenDC = 0
  · exact ⟨CreateError.getScreenDC, by simp [h1, h2]⟩
  by_cases h3 : (plat n).memDC = 0
  · exact ⟨CreateError.createCompatibleDC, by simp [h1, h2, h3]⟩
  by_cases h4 : (plat n).hBitmap = 0
  · exact ⟨CreateError.createCompatibleBitmap, by simp [h1, h2, h3, h4]⟩
  by_cases h5 : (plat n).prevBitmap = 0 ∨ (plat n).prevBitmap = allOnes
  · exact ⟨CreateError.selectBitmap, by simp [h1, h2, h3, h4, h5]⟩
  by_cases h6 : (plat n).hBrush = 0
  · exact ⟨CreateError.createSolidBrush, by simp [h1, h2, h3, h4, h5, h6]⟩
  by_cases h7 : (plat n).fillRet = 0
  · exact ⟨CreateError.fillRect, by simp [h1, h2, h3, h4, h5, h6, h7]⟩
  by_cases h8 : (plat n).updateRet = 0
  · exact ⟨CreateError.updateLayeredWindow, by simp [h1, h2, h3, h4, h5, h6, h7, h8]⟩
  exact absurd ⟨h1, h2, h3, h4, fun e => h5 (Or.inl e), fun e => h5 (Or.inr e), h6, h7, h8⟩ h

theorem destroyWindow_eq (hs : List Handle) (w : World) :
    destroyWindow hs w =
      { trace := w.trace ++ (hs.filter (fun h => h ≠ 0)).map Call.DestroyWindow,
        nCreate := w.nCreate } := by
  induction hs generalizing w with
  | nil => simp [destroyWindow]
  | cons h hs ih =>
    by_cases hz : h = 0
    · simp [destroyWindow, ih, hz]
    · simp [destroyWindow, ih, hz, World.call]

/-! ## The border set -/

theorem newBorderSet_ok (plat : Nat → CreateAnswers) (x y width height : Int)
    (t : List Call) (n : Nat)
    (h0 : (plat n).succeeds) (h1 : (plat (n + 1)).succeeds)
    (h2 : (plat (n + 2)).succeeds) (h3 : (plat (n + 3)).succeeds) :
    newBorderSet plat x y width height { trace := t, nCreate := n } =
      (Except.ok { top := (plat n).hwnd, bottom := (plat (n + 1)).hwnd,
                   left := (plat (n + 2)).hwnd, right := (plat (n + 3)).hwnd },
       { trace := t ++
           [Call.CreateWindowExW (wrapInt (x - THICKNESS)) (wrapInt (y - THICKNESS))
              (wrapInt (width + 2 * THICKNESS)) THICKNESS (plat n).hwnd,
            Call.CreateWindowExW (wrapInt (x - THICKNESS)) (wrapInt (y + height))
              (wrapInt (width + 2 * THICKNESS)) THICKNESS (plat (n + 1)).hwnd,
            Call.CreateWindowExW (wrapInt (x - THICKNESS)) y THICKNESS height
              (plat (n + 2)).hwnd,
            Call.CreateWindowExW (wrapInt (x + width)) y THICKNESS height
              (plat (n + 3)).hwnd],
         nCreate := n + 4 }) := by
  unfold newBorderSet
  rw [createOverlayWindow_ok plat _ _ _ _ _ _ h0]
  simp only []
  rw [createOverlayWindow_ok plat _ _ _ _ _ _ h1]
  simp only []
  rw [createOverlayWindow_ok plat _ _ _ _ _ _ h2]
  simp only []
  rw [createOverlayWindow_ok plat _ _ _ _ _ _ h3]
  simp

theorem newBorderSet_fail1 (plat : Nat → CreateAnswers) (x y width height : Int)
    (t : List Call) (n : Nat) (h0 : ¬ (plat n).succeeds) :
    ∃ e, newBorderSet plat x y width height { trace := t, nCreate := n } =
      (Except.error e,
       { trace := t ++
           ([Call.CreateWindowExW (wrapInt (x - THICKNESS)) (wrapInt (y - THICKNESS))
              (wrapInt (width + 2 * THICKNESS)) THICKNESS (plat n).hwnd]
            ++ cleanup (plat n)),
         nCreate := n + 1 }) := by
  unfold newBorderSet
  obtain ⟨e, he⟩ := createOverlayWindow_fail plat (wrapInt (x - THICKNESS))
    (wrapInt (y - THICKNESS)) (wrapInt (width + 2 * THICKNESS)) THICKNESS t n h0
  rw [he]
  exact ⟨e, by simp⟩

theorem newBorderSet_fail2 (plat : Nat → CreateAnswers) (x y width height : Int)
    (t : List Call) (n : Nat)
    (h0 : (plat n).succeeds) (h1 : ¬ (plat (n + 1)).succeeds) :
    ∃ e, newBorderSet plat x y width height { trace := t, nCreate := n } =
      (Except.error e,
       { trace := t ++
           ([Call.CreateWindowExW (wrapInt (x - THICKNESS)) (wrapInt (y - THICKNESS))
              (wrapInt (width + 2 * THICKNESS)) THICKNESS (plat n).hwnd,
            Call.CreateWindowExW (wrapInt (x - THICKNESS)) (wrapInt (y + height))
              (wrapInt (width + 2 * THICKNESS)) THICKNESS (plat (n + 1)).hwnd]
            ++ cleanup (plat (n + 1))
            ++ [Call.DestroyWindow (plat n).hwnd]),
         nCreate := n + 2 }) := by
  unfold newBorderSet
  rw [createOverlayWindow_ok plat _ _ _ _ _ _ h0]
  simp only []
  obtain ⟨e, he⟩ := createOverlayWindow_fail plat (wrapInt (x - THICKNESS))
    (wrapInt (y + height)) (wrapInt (width + 2 * THICKNESS)) THICKNESS
    (t ++ [Call.CreateWindowExW (wrapInt (x - THICKNESS)) (wrapInt (y - THICKNESS))
              (wrapInt (width + 2 * THICKNESS)) THICKNESS (plat n).hwnd]) (n + 1) h1
  rw [he]
  exact ⟨e, by simp [destroyWindow_eq, h0.1]⟩

theorem newBorderSet_fail3 (plat : Nat → CreateAnswers) (x y width height : Int)
    (t : List Call) (n : Nat)
    (h0 : (plat n).succeeds) (h1 : (plat (n + 1)).succeeds)
    (h2 : ¬ (plat (n + 2)).succeeds) :
    ∃ e, newBorderSet plat x y width height { trace := t, nCreate := n } =
      (Except.error e,
       { trace := t ++
           ([Call.CreateWindowExW (wrapInt (x - THICKNESS)) (wrapInt (y - THICKNESS))
              (wrapInt (width + 2 * THICKNESS)) THICKNESS (plat n).hwnd,
            Call.CreateWindowExW (wrapInt (x - THICKNESS)) (wrapInt (y + height))
              (wrapInt (width + 2 * THICKNESS)) THICKNESS (plat (n + 1)).hwnd,
            Call.CreateWindowExW (wrapInt (x - THICKNESS)) y THICKNESS height
              (plat (n + 2)).hwnd]
            ++ cleanup (plat (n + 2))
            ++ [Call.DestroyWindow (plat n).hwnd,
                Call.DestroyWindow (plat (n + 1)).hwnd]),
         nCreate := n + 3 }) := by
  unfold newBorderSet
  rw [createOverlayWindow_ok plat _ _ _ _ _ _ h0]
  simp only []
  rw [createOverlayWindow_ok plat _ _ _ _ _ _ h1]
  simp only []
  obtain ⟨e, he⟩ := createOverlayWindow_fail plat (wrapInt (x - THICKNESS))
    y THICKNESS height
    (t ++ [Call.CreateWindowExW (wrapInt (x - THICKNESS)) (wrapInt (y - THICKNESS))
              (wrapInt (width + 2 * THICKNESS)) THICKNESS (plat n).hwnd] ++ [Call.CreateWindowExW (wrapInt (x - THICKNESS)) (wrapInt (y + height))
              (wrapInt (width + 2 * THICKNESS)) THICKNESS (plat (n + 1)).hwnd]) (n + 1 + 1) h2
  rw [he]
  exact ⟨e, by simp [destroyWindow_eq, h0.1, h1.1]⟩

theorem newBorderSet_fail4 (plat : Nat → CreateAnswers) (x y width height : Int)
    (t : List Call) (n : Nat)
    (h0 : (plat n).succeeds) (h1 : (plat (n + 1)).succeeds)
    (h2 : (plat (n + 2)).succeeds) (h3 : ¬ (plat (n + 3)).succeeds) :
    ∃ e, newBorderSet plat x y width height { trace := t, nCreate := n } =
      (Except.error e,
       { trace := t ++
           ([Call.CreateWindowExW (wrapInt (x - THICKNESS)) (wrapInt (y - THICKNESS))
              (wrapInt (width + 2 * THICKNESS)) THICKNESS (plat n).hwnd,
            Call.CreateWindowExW (wrapInt (x - THICKNESS)) (wrapInt (y + height))
              (wrapInt (width + 2 * THICKNESS)) THICKNESS (plat (n + 1)).hwnd,
            Call.CreateWindowExW (wrapInt (x - THICKNESS)) y THICKNESS height
              (plat (n + 2)).hwnd,
            Call.CreateWindowExW (wrapInt (x + width)) y THICKNESS height
              (plat (n + 3)).hwnd]
            ++ cleanup (plat (n + 3))
            ++ [Call.DestroyWindow (plat n).hwnd,
                Call.DestroyWindow (plat (n + 1)).hwnd,
                Call.DestroyWindow (plat (n + 2)).hwnd]),
         nCreate := n + 4 }) := by
  unfold newBorderSet
  rw [createOverlayWindow_ok plat _ _ _ _ _ _ h0]
  simp only []
  rw [createOverlayWindow_ok plat _ _ _ _ _ _ h1]
  simp only []
  rw [createOverlayWindow_ok plat _ _ _ _ _ _ h2]
  simp only []
  obtain ⟨e, he⟩ := createOverlayWindow_fail plat (wrapInt (x + width))
    y THICKNESS height
    (t ++ [Call.CreateWindowExW (wrapInt (x - THICKNESS)) (wrapInt (y - THICKNESS))
              (wrapInt (width + 2 * THICKNESS)) THICKNESS (plat n).hwnd] ++ [Call.CreateWindowExW (wrapInt (x - THICKNESS)) (wrapInt (y + height))
              (wrapInt (width + 2 * THICKNESS)) THICKNESS (plat (n + 1)).hwnd] ++ [Call.CreateWindowExW (wrapInt (x - THICKNESS)) y THICKNESS height
              (plat (n + 2)).hwnd]) (n + 1 + 1 + 1) h3
  rw [he]
  exact ⟨e, by simp [destroyWindow_eq, h0.1, h1.1, h2.1]⟩

/-! ## Reading a trace -/

theorem creations_append (t u : List Call) :
    creations (t ++ u) = creations t ++ creations u := by
  induction t with
  | nil => rfl
  | cons c t ih => cases c <;> simp [creations, ih]

theorem created_append (t u : List Call) :
    created (t ++ u) = created t ++ created u := by
  induction t with
  | nil => rfl
  | cons c t ih => cases c <;> simp [created, ih]

theorem destroys_append (t u : List Call) :
    destroys (t ++ u) = destroys t ++ destroys u := by
  induction t with
  | nil => rfl
  | cons c t ih => cases c <;> simp [destroys, ih]

theorem creations_cleanup (a : CreateAnswers) : creations (cleanup a) = [] := by
  unfold cleanup; split_ifs <;> rfl

theorem created_cleanup (a : CreateAnswers) : created (cleanup a) = [] := by
  unfold cleanup; split_ifs <;> rfl

theorem live_append (t u : List Call) : live (t ++ u) = u.foldl liveStep (live t) := by
  simp [live, List.foldl_append]

theorem foldl_liveStep_destroy (hs : List Handle) (l : List Handle) :
    (hs.map Call.DestroyWindow).foldl liveStep l = hs.foldl List.erase l := by
  induction hs generalizing l with
  | nil => rfl
  | cons h hs ih => simp [liveStep, ih]

theorem foldl_erase_perm (xs ys l : List Handle) (h : ys.Perm xs) :
    xs.foldl List.erase (ys ++ l) = l := by
  induction xs generalizing ys with
  | nil => simp [List.Perm.eq_nil h]
  | cons x xs ih =>
    have hx : x ∈ ys := h.symm.subset (List.mem_cons_self x xs)
    have hp : (ys.erase x).Perm xs := by
      have := h.erase x
      simpa using this
    simp only [List.foldl_cons]
    rw [List.erase_append_left _ hx]
    exact ih _ hp

/-- A creation that fails leaves the live windows as they were: its window,
if it was created, is destroyed by the cleanup. -/
theorem foldl_liveStep_failed (x y width height : Int) (a : CreateAnswers)
    (l : List Handle) :
    (Call.CreateWindowExW x y width height a.hwnd :: cleanup a).foldl liveStep l = l := by
  unfold cleanup
  by_cases h : a.hwnd = 0 <;> simp [liveStep, h]

theorem erase_two (a b : Handle) (l : List Handle) :
    ((b :: a :: l).erase a).erase b = l :=
  foldl_erase_perm [a, b] [b, a] l (List.Perm.swap a b [])

theorem erase_three (a b c : Handle) (l : List Handle) :
    (((c :: b :: a :: l).erase a).erase b).erase c = l :=
  foldl_erase_perm [a, b, c] [c, b, a] l (List.reverse_perm [a, b, c])

theorem erase_four (a b c d : Handle) (l : List Handle) :
    ((((d :: c :: b :: a :: l).erase a).erase b).erase c).erase d = l :=
  foldl_erase_perm [a, b, c, d] [d, c, b, a] l (List.reverse_perm [a, b, c, d])

theorem live_rollback1 (t : List Call) (a : CreateAnswers) (x1 y1 w1 h1 : Int) :
    live (t ++ ([Call.CreateWindowExW x1 y1 w1 h1 a.hwnd] ++ cleanup a)) = live t := by
  rw [live_append]
  by_cases hc : a.hwnd = 0 <;> simp [cleanup, liveStep, hc]

theorem live_rollback2 (t : List Call) (a b : CreateAnswers) (ha : a.succeeds)
    (x1 y1 w1 h1 x2 y2 w2 h2 : Int) :
    live (t ++ ([Call.CreateWindowExW x1 y1 w1 h1 a.hwnd,
                 Call.CreateWindowExW x2 y2 w2 h2 b.hwnd]
               ++ cleanup b ++ [Call.DestroyWindow a.hwnd])) = live t := by
  rw [live_append]
  by_cases hc : b.hwnd = 0 <;> simp [cleanup, liveStep, ha.1, hc]

theorem live_rollback3 (t : List Call) (a b c : CreateAnswers) (ha : a.succeeds)
    (hb : b.succeeds) (x1 y1 w1 h1 x2 y2 w2 h2 x3 y3 w3 h3 : Int) :
    live (t ++ ([Call.CreateWindowExW x1 y1 w1 h1 a.hwnd,
                 Call.CreateWindowExW x2 y2 w2 h2 b.hwnd,
                 Call.CreateWindowExW x3 y3 w3 h3 c.hwnd]
               ++ cleanup c ++ [Call.DestroyWindow a.hwnd, Call.DestroyWindow b.hwnd]))
      = live t := by
  rw [live_append]
  by_cases hc : c.hwnd = 0 <;> simp [cleanup, liveStep, ha.1, hb.1, hc] <;>
    exact erase_two _ _ _

theorem live_rollback4 (t : List Call) (a b c d : CreateAnswers) (ha : a.succeeds)
    (hb : b.succeeds) (hc : c.succeeds)
    (x1 y1 w1 h1 x2 y2 w2 h2 x3 y3 w3 h3 x4 y4 w4 h4 : Int) :
    live (t ++ ([Call.CreateWindowExW x1 y1 w1 h1 a.hwnd,
                 Call.CreateWindowExW x2 y2 w2 h2 b.hwnd,
                 Call.CreateWindowExW x3 y3 w3 h3 c.hwnd,
                 Call.CreateWindowExW x4 y4 w4 h4 d.hwnd]
               ++ cleanup d ++ [Call.DestroyWindow a.hwnd, Call.DestroyWindow b.hwnd,
                                Call.DestroyWindow c.hwnd]))
      = live t := by
  rw [live_append]
  by_cases hd : d.hwnd = 0 <;> simp [cleanup, liveStep, ha.1, hb.1, hc.1, hd] <;>
    exact erase_three _ _ _ _

theorem live_created4 (t : List Call) (a b c d : Handle) (ha : a ≠ 0) (hb : b ≠ 0)
    (hc : c ≠ 0) (hd : d ≠ 0) (x1 y1 w1 h1 x2 y2 w2 h2 x3 y3 w3 h3 x4 y4 w4 h4 : Int) :
    live (t ++ [Call.CreateWindowExW x1 y1 w1 h1 a, Call.CreateWindowExW x2 y2 w2 h2 b,
                Call.CreateWindowExW x3 y3 w3 h3 c, Call.CreateWindowExW x4 y4 w4 h4 d])
      = d :: c :: b :: a :: live t := by
  rw [live_append]
  simp [liveStep, ha, hb, hc, hd]

/-- Either all four creations succeed, or `newBorderSet` returns an error and
leaves the live windows as they were. -/
theorem newBorderSet_cases (plat : Nat → CreateAnswers) (x y width height : Int)
    (t : List Call) (n : Nat) :
    ((plat n).succeeds ∧ (plat (n + 1)).succeeds ∧ (plat (n + 2)).succeeds
      ∧ (plat (n + 3)).succeeds) ∨
    ∃ e w1, newBorderSet plat x y width height { trace := t, nCreate := n }
        = (Except.error e, w1) ∧ live w1.trace = live t := by
  by_cases h0 : (plat n).succeeds
  · by_cases h1 : (plat (n + 1)).succeeds
    · by_cases h2 : (plat (n + 2)).succeeds
      · by_cases h3 : (plat (n + 3)).succeeds
        · exact Or.inl ⟨h0, h1, h2, h3⟩
        · obtain ⟨e, he⟩ := newBorderSet_fail4 plat x y width height t n h0 h1 h2 h3
          exact Or.inr ⟨e, _, he, live_rollback4 t _ _ _ _ h0 h1 h2 _ _ _ _ _ _ _ _ _ _ _ _ _ _ _ _⟩
      · obtain ⟨e, he⟩ := newBorderSet_fail3 plat x y width height t n h0 h1 h2
        exact Or.inr ⟨e, _, he, live_rollback3 t _ _ _ h0 h1 _ _ _ _ _ _ _ _ _ _ _ _⟩
    · obtain ⟨e, he⟩ := newBorderSet_fail2 plat x y width height t n h0 h1
      exact Or.inr ⟨e, _, he, live_rollback2 t _ _ h0 _ _ _ _ _ _ _ _⟩
  · obtain ⟨e, he⟩ := newBorderSet_fail1 plat x y width height t n h0
    exact Or.inr ⟨e, _, he, live_rollback1 t _ _ _ _ _⟩

/-- The arguments `newBorderSet` passes for `int32` coordinates, without
wrap-around. -/
theorem newBorderSet_args (x y width height : Int)
    (hx : isInt32 x) (hy : isInt32 y) (hw : isInt32 width) (hh : isInt32 height) :
    wrapInt (x - THICKNESS) = x - THICKNESS ∧ wrapInt (y - THICKNESS) = y - THICKNESS
      ∧ wrapInt (width + 2 * THICKNESS) = width + 2 * THICKNESS
      ∧ wrapInt (y + height) = y + height ∧ wrapInt (x + width) = x + width := by
  unfold isInt32 at hx hy hw hh
  unfold THICKNESS
  refine ⟨?_, ?_, ?_, ?_, ?_⟩ <;> apply wrapInt_eq <;> omega

/-- The rectangles requested by `newBorderSet` once its first three
creations succeed. -/
theorem newBorderSet_creations (plat : Nat → CreateAnswers) (x y width height : Int)
    (t : List Call) (n : Nat)
    (h0 : (plat n).succeeds) (h1 : (plat (n + 1)).succeeds) (h2 : (plat (n + 2)).succeeds) :
    ∃ cs, (newBorderSet plat x y width height { trace := t, nCreate := n }).2.trace = t ++ cs
      ∧ creations cs =
        [(wrapInt (x - THICKNESS), wrapInt (y - THICKNESS),
            wrapInt (width + 2 * THICKNESS), THICKNESS),
         (wrapInt (x - THICKNESS), wrapInt (y + height),
            wrapInt (width + 2 * THICKNESS), THICKNESS),
         (wrapInt (x - THICKNESS), y, THICKNESS, height),
         (wrapInt (x + width), y, THICKNESS, height)] := by
  by_cases h3 : (plat (n + 3)).succeeds
  · rw [newBorderSet_ok plat x y width height t n h0 h1 h2 h3]
    exact ⟨_, rfl, by simp [creations]⟩
  · obtain ⟨e, he⟩ := newBorderSet_fail4 plat x y width height t n h0 h1 h2 h3
    rw [he]
    exact ⟨_, rfl, by simp [creations, creations_append, creations_cleanup, destroys]⟩

/-- The creations of one `newBorderSet` call: at least one, and an initial
segment of the four rectangles of the frame. -/
theorem newBorderSet_shape (plat : Nat → CreateAnswers) (x y width height : Int)
    (t : List Call) (n : Nat) :
    ∃ rest, (newBorderSet plat x y width height { trace := t, nCreate := n }).2.trace
        = t ++ rest
      ∧ creations rest ≠ []
      ∧ creations rest <+:
        [(wrapInt (x - THICKNESS), wrapInt (y - THICKNESS),
            wrapInt (width + 2 * THICKNESS), THICKNESS),
         (wrapInt (x - THICKNESS), wrapInt (y + height),
            wrapInt (width + 2 * THICKNESS), THICKNESS),
         (wrapInt (x - THICKNESS), y, THICKNESS, height),
         (wrapInt (x + width), y, THICKNESS, height)] := by
  by_cases h0 : (plat n).succeeds
  · by_cases h1 : (plat (n + 1)).succeeds
    · by_cases h2 : (plat (n + 2)).succeeds
      · obtain ⟨cs, hcs, hc⟩ := newBorderSet_creations plat x y width height t n h0 h1 h2
        exact ⟨cs, hcs, by rw [hc]; simp, by rw [hc]⟩
      · obtain ⟨e, he⟩ := newBorderSet_fail3 plat x y width height t n h0 h1 h2
        rw [he]
        refine ⟨_, rfl, ?_, ?_⟩
        · simp [creations, creations_append, creations_cleanup]
        · simp [creations, creations_append, creations_cleanup]
    · obtain ⟨e, he⟩ := newBorderSet_fail2 plat x y width height t n h0 h1
      rw [he]
      refine ⟨_, rfl, ?_, ?_⟩
      · simp [creations, creations_append, creations_cleanup]
      · simp [creations, creations_append, creations_cleanup]
  · obtain ⟨e, he⟩ := newBorderSet_fail1 plat x y width height t n h0
    rw [he]
    refine ⟨_, rfl, ?_, ?_⟩
    · simp [creations, creations_append, creations_cleanup]
    · simp [creations, creations_append, creations_cleanup]

/-! ## The loop body -/

theorem getActiveWindowRect_snd (q : QueryAnswers) (w : World) :
    (getActiveWindowRect q w).2 = w.call (Call.GetForegroundWindow q.handle) := by
  unfold getActiveWindowRect
  split_ifs <;> rfl

theorem getActiveWindowRect_fst (q : QueryAnswers) (w w1 : World) :
    (getActiveWindowRect q w).1 = (getActiveWindowRect q w1).1 := by
  unfold getActiveWindowRect
  split_ifs <;> rfl

theorem getActiveWindowRect_isInt32 (q : QueryAnswers) (w : World)
    (hq : q.rect.wellTyped) :
    isInt32 (getActiveWindowRect q w).1.x ∧ isInt32 (getActiveWindowRect q w).1.y
      ∧ isInt32 (getActiveWindowRect q w).1.width
      ∧ isInt32 (getActiveWindowRect q w).1.height := by
  obtain ⟨h1, h2, -, -⟩ := hq
  unfold getActiveWindowRect
  have hz : isInt32 0 := by decide
  split_ifs
  · exact ⟨hz, hz, hz, hz⟩
  · exact ⟨hz, hz, hz, hz⟩
  · exact ⟨h1, h2, wrapInt32_isInt32 _, wrapInt32_isInt32 _⟩

theorem getActiveWindowRect_handle (q : QueryAnswers) (w : World)
    (h : (getActiveWindowRect q w).1.ok = true) :
    (getActiveWindowRect q w).1.handle = q.handle ∧ q.handle ≠ 0 := by
  by_cases h1 : q.handle = 0
  · simp [getActiveWindowRect, h1] at h
  by_cases h2 : q.ret = 0
  · simp [getActiveWindowRect, h1, h2] at h
  exact ⟨by simp [getActiveWindowRect, h1, h2], h1⟩

theorem tick_none (plat : Nat → CreateAnswers) (q : QueryAnswers) (s : Tracker)
    (h : (getActiveWindowRect q s.world).1.ok = false) :
    tick plat q s =
      { s with currentBorders := none,
               world := destroyCurrent s.currentBorders
                 (s.world.call (Call.GetForegroundWindow q.handle)) } := by
  have h2 := getActiveWindowRect_snd q s.world
  rcases hq : getActiveWindowRect q s.world with ⟨a, w0⟩
  rw [hq] at h h2
  simp only at h h2
  simp only [tick, hq, h, h2]
  simp

theorem tick_same (plat : Nat → CreateAnswers) (q : QueryAnswers) (s : Tracker)
    (h : (getActiveWindowRect q s.world).1.ok = true)
    (h1 : (getActiveWindowRect q s.world).1.handle = s.prevHandle)
    (h2 : (getActiveWindowRect q s.world).1.x = s.prevX)
    (h3 : (getActiveWindowRect q s.world).1.y = s.prevY)
    (h4 : (getActiveWindowRect q s.world).1.width = s.prevWidth)
    (h5 : (getActiveWindowRect q s.world).1.height = s.prevHeight) :
    tick plat q s =
      { s with world := (s.world.call (Call.GetForegroundWindow q.handle)).call
                 (Call.Sleep 100) } := by
  have h0 := getActiveWindowRect_snd q s.world
  rcases hq : getActiveWindowRect q s.world with ⟨a, w0⟩
  rw [hq] at h h0 h1 h2 h3 h4 h5
  simp only at h h0 h1 h2 h3 h4 h5
  simp only [tick, hq, h, h0, h1, h2, h3, h4, h5]
  simp

theorem tick_changed (plat : Nat → CreateAnswers) (q : QueryAnswers) (s : Tracker)
    (h : (getActiveWindowRect q s.world).1.ok = true)
    (hd : (getActiveWindowRect q s.world).1.handle ≠ s.prevHandle
      ∨ (getActiveWindowRect q s.world).1.x ≠ s.prevX
      ∨ (getActiveWindowRect q s.world).1.y ≠ s.prevY
      ∨ (getActiveWindowRect q s.world).1.width ≠ s.prevWidth
      ∨ (getActiveWindowRect q s.world).1.height ≠ s.prevHeight) :
    tick plat q s =
      match newBorderSet plat (getActiveWindowRect q s.world).1.x
          (getActiveWindowRect q s.world).1.y (getActiveWindowRect q s.world).1.width
          (getActiveWindowRect q s.world).1.height
          (destroyCurrent s.currentBorders
            (s.world.call (Call.GetForegroundWindow q.handle))) with
      | (Except.error _, w2) => { s with currentBorders := none, world := w2 }
      | (Except.ok newBorders, w2) =>
        { currentBorders := some newBorders,
          prevHandle := (getActiveWindowRect q s.world).1.handle,
          prevX := (getActiveWindowRect q s.world).1.x,
          prevY := (getActiveWindowRect q s.world).1.y,
          prevWidth := (getActiveWindowRect q s.world).1.width,
          prevHeight := (getActiveWindowRect q s.world).1.height,
          world := w2.call (Call.Sleep 100) } := by
  have h0 := getActiveWindowRect_snd q s.world
  rcases hq : getActiveWindowRect q s.world with ⟨a, w0⟩
  rw [hq] at h h0 hd
  simp only at h h0 hd
  simp only [tick, hq, h, h0]
  simp [hd]

/-! ## The invariant of the loop -/

theorem Destroy_eq (b : BorderSet) (w : World)
    (h1 : b.top ≠ 0) (h2 : b.bottom ≠ 0) (h3 : b.left ≠ 0) (h4 : b.right ≠ 0) :
    b.Destroy w =
      ({ top := 0, bottom := 0, left := 0, right := 0 },
       { trace := w.trace ++ [Call.DestroyWindow b.top, Call.DestroyWindow b.bottom,
                              Call.DestroyWindow b.left, Call.DestroyWindow b.right],
         nCreate := w.nCreate }) := by
  simp [BorderSet.Destroy, destroyWindow_eq, h1, h2, h3, h4]

theorem live_destroyCurrent (s : Tracker) (hs : s.noPartial) (h : Handle) :
    live (destroyCurrent s.currentBorders
      (s.world.call (Call.GetForegroundWindow h))).trace = [] := by
  unfold Tracker.noPartial at hs
  cases hcb : s.currentBorders with
  | none =>
    rw [hcb] at hs
    simp only at hs
    simp [destroyCurrent, World.call, live_append, liveStep, hs]
  | some b =>
    rw [hcb] at hs
    obtain ⟨hl, h1, h2, h3, h4⟩ := hs
    simp only [destroyCurrent, Destroy_eq b _ h1 h2 h3 h4, World.call]
    rw [live_append, live_append, hl]
    simp only [List.foldl_cons, List.foldl_nil, liveStep]
    exact erase_four _ _ _ _ []

theorem tick_noPartial (plat : Nat → CreateAnswers) (q : QueryAnswers) (s : Tracker)
    (hs : s.noPartial) : (tick plat q s).noPartial := by
  have hdc := live_destroyCurrent s hs q.handle
  cases hok : (getActiveWindowRect q s.world).1.ok with
  | false =>
    rw [tick_none plat q s hok]
    simpa [Tracker.noPartial] using hdc
  | true =>
    by_cases hd : (getActiveWindowRect q s.world).1.handle ≠ s.prevHandle
      ∨ (getActiveWindowRect q s.world).1.x ≠ s.prevX
      ∨ (getActiveWindowRect q s.world).1.y ≠ s.prevY
      ∨ (getActiveWindowRect q s.world).1.width ≠ s.prevWidth
      ∨ (getActiveWindowRect q s.world).1.height ≠ s.prevHeight
    · rw [tick_changed plat q s hok hd]
      rcases hw : destroyCurrent s.currentBorders
        (s.world.call (Call.GetForegroundWindow q.handle)) with ⟨t1, n1⟩
      rw [hw] at hdc
      simp only at hdc
      rcases newBorderSet_cases plat (getActiveWindowRect q s.world).1.x
          (getActiveWindowRect q s.world).1.y (getActiveWindowRect q s.world).1.width
          (getActiveWindowRect q s.world).1.height t1 n1 with ⟨h0, h1, h2, h3⟩ | ⟨e, w1, he, hl⟩
      · rw [newBorderSet_ok plat _ _ _ _ t1 n1 h0 h1 h2 h3]
        simp only [Tracker.noPartial, World.call]
        refine ⟨?_, h0.1, h1.1, h2.1, h3.1⟩
        rw [live_append, live_created4 t1 _ _ _ _ h0.1 h1.1 h2.1 h3.1, hdc]
        rfl
      · rw [he]
        simp only [Tracker.noPartial]
        rw [hl, hdc]
    · simp only [not_or, not_not] at hd
      obtain ⟨e1, e2, e3, e4, e5⟩ := hd
      rw [tick_same plat q s hok e1 e2 e3 e4 e5]
      unfold Tracker.noPartial at hs ⊢
      simp only [World.call]
      have hl : live (s.world.trace ++ [Call.GetForegroundWindow q.handle]
          ++ [Call.Sleep 100]) = live s.world.trace := by
        simp [live_append, liveStep]
      rw [hl]
      exact hs

theorem run_noPartial (plat : Nat → CreateAnswers) (qs : List QueryAnswers) (s : Tracker)
    (hs : s.noPartial) : (run plat qs s).noPartial := by
  induction qs generalizing s with
  | nil => exact hs
  | cons q qs ih => exact ih _ (tick_noPartial plat q s hs)

theorem init_noPartial : Tracker.init.noPartial := by
  simp [Tracker.noPartial, Tracker.init, live]

/-! ## Replacing and keeping the border set -/

theorem destroyCurrent_some (s : Tracker) (b : BorderSet) (hcb : s.currentBorders = some b)
    (hs : s.noPartial) (h : Handle) :
    destroyCurrent s.currentBorders (s.world.call (Call.GetForegroundWindow h)) =
      { trace := s.world.trace ++
          [Call.GetForegroundWindow h, Call.DestroyWindow b.top,
           Call.DestroyWindow b.bottom, Call.DestroyWindow b.left,
           Call.DestroyWindow b.right],
        nCreate := s.world.nCreate } := by
  unfold Tracker.noPartial at hs
  rw [hcb] at hs ⊢
  obtain ⟨-, h1, h2, h3, h4⟩ := hs
  simp [destroyCurrent, Destroy_eq b _ h1 h2 h3 h4, World.call]

/-- A tick that sees a foreground window other than the last target, while a
border set is current: four destroys, then the creations of `newBorderSet`. -/
theorem tick_replace (plat : Nat → CreateAnswers) (q : QueryAnswers) (s : Tracker)
    (b : BorderSet) (a : Active)
    (hcb : s.currentBorders = some b) (hs : s.noPartial)
    (ha : (getActiveWindowRect q s.world).1 = a) (hok : a.ok = true)
    (hd : a.handle ≠ s.prevHandle ∨ a.x ≠ s.prevX ∨ a.y ≠ s.prevY
      ∨ a.width ≠ s.prevWidth ∨ a.height ≠ s.prevHeight) :
    (∃ rest, (tick plat q s).world.trace =
        s.world.trace ++
          [Call.GetForegroundWindow q.handle, Call.DestroyWindow b.top,
           Call.DestroyWindow b.bottom, Call.DestroyWindow b.left,
           Call.DestroyWindow b.right] ++ rest
      ∧ creations rest ≠ []
      ∧ creations rest <+:
        [(wrapInt (a.x - THICKNESS), wrapInt (a.y - THICKNESS),
            wrapInt (a.width + 2 * THICKNESS), THICKNESS),
         (wrapInt (a.x - THICKNESS), wrapInt (a.y + a.height),
            wrapInt (a.width + 2 * THICKNESS), THICKNESS),
         (wrapInt (a.x - THICKNESS), a.y, THICKNESS, a.height),
         (wrapInt (a.x + a.width), a.y, THICKNESS, a.height)]) ∧
    ((plat s.world.nCreate).succeeds → (plat (s.world.nCreate + 1)).succeeds →
      (plat (s.world.nCreate + 2)).succeeds → (plat (s.world.nCreate + 3)).succeeds →
      tick plat q s =
        { currentBorders := some
            { top := (plat s.world.nCreate).hwnd, bottom := (plat (s.world.nCreate + 1)).hwnd,
              left := (plat (s.world.nCreate + 2)).hwnd,
              right := (plat (s.world.nCreate + 3)).hwnd },
          prevHandle := a.handle, prevX := a.x, prevY := a.y, prevWidth := a.width,
          prevHeight := a.height,
          world :=
            { trace := s.world.trace ++
                [Call.GetForegroundWindow q.handle, Call.DestroyWindow b.top,
                 Call.DestroyWindow b.bottom, Call.DestroyWindow b.left,
                 Call.DestroyWindow b.right,
                 Call.CreateWindowExW (wrapInt (a.x - THICKNESS)) (wrapInt (a.y - THICKNESS))
                   (wrapInt (a.width + 2 * THICKNESS)) THICKNESS (plat s.world.nCreate).hwnd,
                 Call.CreateWindowExW (wrapInt (a.x - THICKNESS)) (wrapInt (a.y + a.height))
                   (wrapInt (a.width + 2 * THICKNESS)) THICKNESS
                   (plat (s.world.nCreate + 1)).hwnd,
                 Call.CreateWindowExW (wrapInt (a.x - THICKNESS)) a.y THICKNESS a.height
                   (plat (s.world.nCreate + 2)).hwnd,
                 Call.CreateWindowExW (wrapInt (a.x + a.width)) a.y THICKNESS a.height
                   (plat (s.world.nCreate + 3)).hwnd,
                 Call.Sleep 100],
              nCreate := s.world.nCreate + 4 } }) := by
  subst ha
  have hdc := destroyCurrent_some s b hcb hs q.handle
  have ht := tick_changed plat q s hok hd
  rw [hdc] at ht
  constructor
  · obtain ⟨rest, hr, hne, hpre⟩ := newBorderSet_shape plat
      (getActiveWindowRect q s.world).1.x (getActiveWindowRect q s.world).1.y
      (getActiveWindowRect q s.world).1.width (getActiveWindowRect q s.world).1.height
      (s.world.trace ++
          [Call.GetForegroundWindow q.handle, Call.DestroyWindow b.top,
           Call.DestroyWindow b.bottom, Call.DestroyWindow b.left,
           Call.DestroyWindow b.right]) s.world.nCreate
    rcases hn : newBorderSet plat
      (getActiveWindowRect q s.world).1.x (getActiveWindowRect q s.world).1.y
      (getActiveWindowRect q s.world).1.width (getActiveWindowRect q s.world).1.height
      { trace := s.world.trace ++
          [Call.GetForegroundWindow q.handle, Call.DestroyWindow b.top,
           Call.DestroyWindow b.bottom, Call.DestroyWindow b.left,
           Call.DestroyWindow b.right], nCreate := s.world.nCreate } with ⟨r, w2⟩
    rw [hn] at ht hr
    simp only at hr
    cases r with
    | error e =>
      simp only at ht
      rw [ht]
      exact ⟨rest, hr, hne, hpre⟩
    | ok nb =>
      simp only at ht
      rw [ht]
      refine ⟨rest ++ [Call.Sleep 100], ?_, ?_, ?_⟩
      · simp [World.call, hr]
      · simpa [creations_append, creations] using hne
      · simpa [creations_append, creations] using hpre
  · intro h0 h1 h2 h3
    rw [newBorderSet_ok plat _ _ _ _ _ _ h0 h1 h2 h3] at ht
    rw [ht]
    simp [World.call]

/-- A tick that ends with a border set installed has recorded the window it
saw as the last target. -/
theorem tick_installed_prev (plat : Nat → CreateAnswers) (q : QueryAnswers) (s : Tracker)
    (hok : (getActiveWindowRect q s.world).1.ok = true)
    (hcb : (tick plat q s).currentBorders ≠ none) :
    (getActiveWindowRect q s.world).1.handle = (tick plat q s).prevHandle
      ∧ (getActiveWindowRect q s.world).1.x = (tick plat q s).prevX
      ∧ (getActiveWindowRect q s.world).1.y = (tick plat q s).prevY
      ∧ (getActiveWindowRect q s.world).1.width = (tick plat q s).prevWidth
      ∧ (getActiveWindowRect q s.world).1.height = (tick plat q s).prevHeight := by
  by_cases hd : (getActiveWindowRect q s.world).1.handle ≠ s.prevHandle
      ∨ (getActiveWindowRect q s.world).1.x ≠ s.prevX
      ∨ (getActiveWindowRect q s.world).1.y ≠ s.prevY
      ∨ (getActiveWindowRect q s.world).1.width ≠ s.prevWidth
      ∨ (getActiveWindowRect q s.world).1.height ≠ s.prevHeight
  · have ht := tick_changed plat q s hok hd
    rcases hn : newBorderSet plat
      (getActiveWindowRect q s.world).1.x (getActiveWindowRect q s.world).1.y
      (getActiveWindowRect q s.world).1.width (getActiveWindowRect q s.world).1.height
      (destroyCurrent s.currentBorders
        (s.world.call (Call.GetForegroundWindow q.handle))) with ⟨r, w2⟩
    rw [hn] at ht
    cases r with
    | error e =>
      simp only at ht
      rw [ht] at hcb
      exact absurd rfl hcb
    | ok nb =>
      simp only at ht
      rw [ht]
      exact ⟨rfl, rfl, rfl, rfl, rfl⟩
  · simp only [not_or, not_not] at hd
    obtain ⟨e1, e2, e3, e4, e5⟩ := hd
    rw [tick_same plat q s hok e1 e2 e3 e4 e5]
    exact ⟨e1, e2, e3, e4, e5⟩

/-! ## The claims -/

/-- C1: for a target rectangle with origin `(x, y)`, width `w` and height `h`
(all `int32` values, as `getActiveWindowRect` produces them) and thickness
`T = 5`, `newBorderSet` requests exactly four overlay creations, in the order
top, bottom, left, right, at `(x-T, y-T, w+2T, T)`, `(x-T, y+h, w+2T, T)`,
`(x-T, y, T, h)` and `(x+w, y, T, h)`; the fourth is reached when the first
three succeed.  For the foreground rectangle `(100, 200, 500, 600)` these are
`(95,195,410,5)`, `(95,600,410,5)`, `(95,200,5,400)` and `(500,200,5,400)`. -/
theorem C1_newBorderSet_geometry (plat : Nat → CreateAnswers) (x y width height : Int)
    (w : World)
    (hx : isInt32 x) (hy : isInt32 y) (hw : isInt32 width) (hh : isInt32 height)
    (h0 : (plat w.nCreate).succeeds) (h1 : (plat (w.nCreate + 1)).succeeds)
    (h2 : (plat (w.nCreate + 2)).succeeds) :
    THICKNESS = 5 ∧
    (∃ cs, (newBorderSet plat x y width height w).2.trace = w.trace ++ cs
      ∧ creations cs =
        [(x - THICKNESS, y - THICKNESS, width + 2 * THICKNESS, THICKNESS),
         (x - THICKNESS, y + height, width + 2 * THICKNESS, THICKNESS),
         (x - THICKNESS, y, THICKNESS, height),
         (x + width, y, THICKNESS, height)]) ∧
    (∀ (hd rt : Nat) (w0 : World), hd ≠ 0 → rt ≠ 0 →
      (getActiveWindowRect { handle := hd, ret := rt, rect := ⟨100, 200, 500, 600⟩ } w0).1
          = ⟨hd, 100, 200, 400, 400, true⟩
      ∧ ∃ cs, (newBorderSet plat 100 200 400 400 w).2.trace = w.trace ++ cs
          ∧ creations cs =
            [(95, 195, 410, 5), (95, 600, 410, 5), (95, 200, 5, 400), (500, 200, 5, 400)]) := by
  obtain ⟨t, n⟩ := w
  refine ⟨rfl, ?_, ?_⟩
  · obtain ⟨cs, hcs, hc⟩ := newBorderSet_creations plat x y width height t n h0 h1 h2
    obtain ⟨e1, e2, e3, e4, e5⟩ := newBorderSet_args x y width height hx hy hw hh
    rw [e1, e2, e3, e4, e5] at hc
    exact ⟨cs, hcs, hc⟩
  · intro hd rt w0 hhd hrt
    refine ⟨by simp [getActiveWindowRect, hhd, hrt, wrapInt32], ?_⟩
    obtain ⟨cs, hcs, hc⟩ := newBorderSet_creations plat 100 200 400 400 t n h0 h1 h2
    exact ⟨cs, hcs, by rw [hc]; decide⟩

/-- Witness of C1: the foreground rectangle `(100, 200, 500, 600)` on a platform
where every creation succeeds. -/
theorem C1_newBorderSet_geometry_witness :
    ∃ cs, (newBorderSet platOk 100 200 400 400 Tracker.init.world).2.trace
        = Tracker.init.world.trace ++ cs
      ∧ creations cs =
        [(100 - THICKNESS, 200 - THICKNESS, 400 + 2 * THICKNESS, THICKNESS),
         (100 - THICKNESS, 200 + 400, 400 + 2 * THICKNESS, THICKNESS),
         (100 - THICKNESS, 200, THICKNESS, 400),
         (100 + 400, 200, THICKNESS, 400)] :=
  (C1_newBorderSet_geometry platOk 100 200 400 400 Tracker.init.world
    (by decide) (by decide) (by decide) (by decide) (by decide) (by decide) (by decide)).2.1

/-- C2: for every `k` in `1..4`, if the `k`-th overlay creation inside
`newBorderSet` fails (the earlier ones having succeeded), `newBorderSet`
returns an error and no `BorderSet`, has made exactly `k` creation calls,
then destroys exactly the `k-1` overlays it had created, in creation order,
and leaves the live windows as they were before the call. -/
theorem C2_newBorderSet_rollback (plat : Nat → CreateAnswers) (x y width height : Int)
    (w : World) (k : Nat) (hk1 : 1 ≤ k) (hk4 : k ≤ 4)
    (hok : ∀ j, j + 1 < k → (plat (w.nCreate + j)).succeeds)
    (hfail : ¬ (plat (w.nCreate + (k - 1))).succeeds) :
    (∃ e, (newBorderSet plat x y width height w).1 = Except.error e) ∧
    (newBorderSet plat x y width height w).2.nCreate = w.nCreate + k ∧
    (∃ cs, cs.length = k ∧ (creations cs).length = k
      ∧ created cs = (List.range k).map (fun j => (plat (w.nCreate + j)).hwnd)
      ∧ (newBorderSet plat x y width height w).2.trace =
          w.trace ++ cs ++ cleanup (plat (w.nCreate + (k - 1)))
            ++ (List.range (k - 1)).map
                (fun j => Call.DestroyWindow (plat (w.nCreate + j)).hwnd)) ∧
    (∀ j, j + 1 < k → (plat (w.nCreate + j)).hwnd ≠ 0) ∧
    live (newBorderSet plat x y width height w).2.trace = live w.trace := by
  obtain ⟨t, n⟩ := w
  have hnz : ∀ j, j + 1 < k → (plat (n + j)).hwnd ≠ 0 := fun j hj => (hok j hj).1
  simp only at hok hfail ⊢
  interval_cases k
  · obtain ⟨e, he⟩ := newBorderSet_fail1 plat x y width height t n hfail
    rw [he]
    refine ⟨⟨e, rfl⟩, rfl, ⟨[Call.CreateWindowExW (wrapInt (x - THICKNESS)) (wrapInt (y - THICKNESS))
        (wrapInt (width + 2 * THICKNESS)) THICKNESS (plat n).hwnd], rfl, rfl, rfl, ?_⟩, hnz, ?_⟩
    · simp [List.range_succ]
    · exact live_rollback1 t _ _ _ _ _
  · have h0 := hok 0 (by omega)
    obtain ⟨e, he⟩ := newBorderSet_fail2 plat x y width height t n h0 hfail
    rw [he]
    refine ⟨⟨e, rfl⟩, rfl, ⟨[Call.CreateWindowExW (wrapInt (x - THICKNESS)) (wrapInt (y - THICKNESS))
        (wrapInt (width + 2 * THICKNESS)) THICKNESS (plat n).hwnd,
       Call.CreateWindowExW (wrapInt (x - THICKNESS)) (wrapInt (y + height))
        (wrapInt (width + 2 * THICKNESS)) THICKNESS (plat (n + 1)).hwnd], rfl, rfl, rfl, ?_⟩, hnz, ?_⟩
    · simp [List.range_succ]
    · exact live_rollback2 t _ _ h0 _ _ _ _ _ _ _ _
  · have h0 := hok 0 (by omega)
    have h1 := hok 1 (by omega)
    obtain ⟨e, he⟩ := newBorderSet_fail3 plat x y width height t n h0 h1 hfail
    rw [he]
    refine ⟨⟨e, rfl⟩, rfl, ⟨[Call.CreateWindowExW (wrapInt (x - THICKNESS)) (wrapInt (y - THICKNESS))
        (wrapInt (width + 2 * THICKNESS)) THICKNESS (plat n).hwnd,
       Call.CreateWindowExW (wrapInt (x - THICKNESS)) (wrapInt (y + height))
        (wrapInt (width + 2 * THICKNESS)) THICKNESS (plat (n + 1)).hwnd,
       Call.CreateWindowExW (wrapInt (x - THICKNESS)) y THICKNESS height
        (plat (n + 2)).hwnd], rfl, rfl, rfl, ?_⟩, hnz, ?_⟩
    · simp [List.range_succ]
    · exact live_rollback3 t _ _ _ h0 h1 _ _ _ _ _ _ _ _ _ _ _ _
  · have h0 := hok 0 (by omega)
    have h1 := hok 1 (by omega)
    have h2 := hok 2 (by omega)
    obtain ⟨e, he⟩ := newBorderSet_fail4 plat x y width height t n h0 h1 h2 hfail
    rw [he]
    refine ⟨⟨e, rfl⟩, rfl, ⟨[Call.CreateWindowExW (wrapInt (x - THICKNESS)) (wrapInt (y - THICKNESS))
        (wrapInt (width + 2 * THICKNESS)) THICKNESS (plat n).hwnd,
       Call.CreateWindowExW (wrapInt (x - THICKNESS)) (wrapInt (y + height))
        (wrapInt (width + 2 * THICKNESS)) THICKNESS (plat (n + 1)).hwnd,
       Call.CreateWindowExW (wrapInt (x - THICKNESS)) y THICKNESS height
        (plat (n + 2)).hwnd,
       Call.CreateWindowExW (wrapInt (x + width)) y THICKNESS height
        (plat (n + 3)).hwnd], rfl, rfl, rfl, ?_⟩, hnz, ?_⟩
    · simp [List.range_succ]
    · exact live_rollback4 t _ _ _ _ h0 h1 h2 _ _ _ _ _ _ _ _ _ _ _ _ _ _ _ _

/-- Witness of C2: the third creation fails in `UpdateLayeredWindow`; the two
overlays created before it (top and bottom) are destroyed. -/
theorem C2_newBorderSet_rollback_witness :
    ¬ (platFailAt 2 2).succeeds ∧
    (newBorderSet (platFailAt 2) 100 200 400 400 Tracker.init.world).2.trace =
      [Call.CreateWindowExW 95 195 410 5 1000, Call.CreateWindowExW 95 600 410 5 1001,
       Call.CreateWindowExW 95 200 5 400 1002, Call.DestroyWindow 1002,
       Call.DestroyWindow 1000, Call.DestroyWindow 1001] ∧
    live (newBorderSet (platFailAt 2) 100 200 400 400 Tracker.init.world).2.trace
      = live Tracker.init.world.trace :=
  ⟨by decide, by decide,
   (C2_newBorderSet_rollback (platFailAt 2) 100 200 400 400 Tracker.init.world 3
      (by decide) (by decide)
      (fun j hj => by
        have hj2 : j < 2 := by omega
        interval_cases j <;> decide)
      (by decide)).2.2.2.2⟩

/-- C3 (the code at the failing input): window `7` with rectangle
`(100, 200, 500, 600)` is focused, then no foreground window is reported, then
the same window is focused again.  The third query returns the foreground
window, yet after the third tick no border set is current and no overlay is
alive: the tick only slept, because `prevHandle` and the previous rectangle
were not reset when the borders were destroyed. -/
theorem C3_refocus_same_window_no_borders :
    (getActiveWindowRect (focus 7 ⟨100, 200, 500, 600⟩) Tracker.init.world).1
      = ⟨7, 100, 200, 400, 400, true⟩ ∧
    (run platOk [focus 7 ⟨100, 200, 500, 600⟩, noFocus, focus 7 ⟨100, 200, 500, 600⟩]
      Tracker.init).currentBorders = none ∧
    live (run platOk [focus 7 ⟨100, 200, 500, 600⟩, noFocus, focus 7 ⟨100, 200, 500, 600⟩]
      Tracker.init).world.trace = [] ∧
    (run platOk [focus 7 ⟨100, 200, 500, 600⟩, noFocus, focus 7 ⟨100, 200, 500, 600⟩]
      Tracker.init).world.trace =
      [Call.GetForegroundWindow 7, Call.CreateWindowExW 95 195 410 5 1000,
       Call.CreateWindowExW 95 600 410 5 1001, Call.CreateWindowExW 95 200 5 400 1002,
       Call.CreateWindowExW 500 200 5 400 1003, Call.Sleep 100,
       Call.GetForegroundWindow 0, Call.DestroyWindow 1000, Call.DestroyWindow 1001,
       Call.DestroyWindow 1002, Call.DestroyWindow 1003,
       Call.GetForegroundWindow 7, Call.Sleep 100] := by
  refine ⟨by decide, by decide, by decide, by decide⟩

/-- C4 (the code at the failing input): after window `7` was framed and a tick
then reported no foreground window, the border set is absent while the last
target is still `(7, 100, 200, 400, 400)`; and after a tick whose border-set
creation fails (the third creation of the second set), the border set is
absent while the last target is still the previous window. -/
theorem C4_last_target_not_cleared :
    (run platOk [focus 7 ⟨100, 200, 500, 600⟩, noFocus] Tracker.init).currentBorders = none ∧
    (run platOk [focus 7 ⟨100, 200, 500, 600⟩, noFocus] Tracker.init).prevHandle = 7 ∧
    (run platOk [focus 7 ⟨100, 200, 500, 600⟩, noFocus] Tracker.init).prevX = 100 ∧
    (run platOk [focus 7 ⟨100, 200, 500, 600⟩, noFocus] Tracker.init).prevY = 200 ∧
    (run platOk [focus 7 ⟨100, 200, 500, 600⟩, noFocus] Tracker.init).prevWidth = 400 ∧
    (run platOk [focus 7 ⟨100, 200, 500, 600⟩, noFocus] Tracker.init).prevHeight = 400 ∧
    (run (platFailAt 6) [focus 7 ⟨100, 200, 500, 600⟩, focus 8 ⟨0, 0, 300, 300⟩]
      Tracker.init).currentBorders = none ∧
    (run (platFailAt 6) [focus 7 ⟨100, 200, 500, 600⟩, focus 8 ⟨0, 0, 300, 300⟩]
      Tracker.init).prevHandle = 7 := by
  refine ⟨by decide, by decide, by decide, by decide, by decide, by decide, by decide,
    by decide⟩

/-- C5: in a state holding a live border set `b` for the last target, a tick
whose foreground query returns a window whose handle or rectangle differs
from the last target (a changed handle alone is enough) first destroys the
four overlays of `b`, after which no overlay is alive, and only afterwards
issues creations, which are an initial segment of the four rectangles framing
the new rectangle.  When the four creations succeed the new set is installed
and the last target becomes the window just seen. -/
theorem C5_replace_destroys_then_creates (plat : Nat → CreateAnswers) (q : QueryAnswers)
    (s : Tracker) (b : BorderSet) (a : Active)
    (hcb : s.currentBorders = some b) (hs : s.noPartial) (hq : q.rect.wellTyped)
    (ha : (getActiveWindowRect q s.world).1 = a) (hok : a.ok = true)
    (hd : a.handle ≠ s.prevHandle ∨ a.x ≠ s.prevX ∨ a.y ≠ s.prevY
      ∨ a.width ≠ s.prevWidth ∨ a.height ≠ s.prevHeight) :
    live (s.world.trace ++
          [Call.GetForegroundWindow q.handle, Call.DestroyWindow b.top,
           Call.DestroyWindow b.bottom, Call.DestroyWindow b.left,
           Call.DestroyWindow b.right]) = [] ∧
    (∃ rest, (tick plat q s).world.trace =
        s.world.trace ++
          [Call.GetForegroundWindow q.handle, Call.DestroyWindow b.top,
           Call.DestroyWindow b.bottom, Call.DestroyWindow b.left,
           Call.DestroyWindow b.right] ++ rest
      ∧ creations rest ≠ []
      ∧ creations rest <+:
        [(a.x - THICKNESS, a.y - THICKNESS, a.width + 2 * THICKNESS, THICKNESS),
         (a.x - THICKNESS, a.y + a.height, a.width + 2 * THICKNESS, THICKNESS),
         (a.x - THICKNESS, a.y, THICKNESS, a.height),
         (a.x + a.width, a.y, THICKNESS, a.height)]) ∧
    ((plat s.world.nCreate).succeeds → (plat (s.world.nCreate + 1)).succeeds →
      (plat (s.world.nCreate + 2)).succeeds → (plat (s.world.nCreate + 3)).succeeds →
      tick plat q s =
        { currentBorders := some
            { top := (plat s.world.nCreate).hwnd, bottom := (plat (s.world.nCreate + 1)).hwnd,
              left := (plat (s.world.nCreate + 2)).hwnd,
              right := (plat (s.world.nCreate + 3)).hwnd },
          prevHandle := a.handle, prevX := a.x, prevY := a.y, prevWidth := a.width,
          prevHeight := a.height,
          world :=
            { trace := s.world.trace ++
                [Call.GetForegroundWindow q.handle, Call.DestroyWindow b.top,
                 Call.DestroyWindow b.bottom, Call.DestroyWindow b.left,
                 Call.DestroyWindow b.right,
                 Call.CreateWindowExW (a.x - THICKNESS) (a.y - THICKNESS)
                   (a.width + 2 * THICKNESS) THICKNESS (plat s.world.nCreate).hwnd,
                 Call.CreateWindowExW (a.x - THICKNESS) (a.y + a.height)
                   (a.width + 2 * THICKNESS) THICKNESS (plat (s.world.nCreate + 1)).hwnd,
                 Call.CreateWindowExW (a.x - THICKNESS) a.y THICKNESS a.height
                   (plat (s.world.nCreate + 2)).hwnd,
                 Call.CreateWindowExW (a.x + a.width) a.y THICKNESS a.height
                   (plat (s.world.nCreate + 3)).hwnd,
                 Call.Sleep 100],
              nCreate := s.world.nCreate + 4 } }) := by
  have hint := getActiveWindowRect_isInt32 q s.world hq
  rw [ha] at hint
  obtain ⟨e1, e2, e3, e4, e5⟩ :=
    newBorderSet_args a.x a.y a.width a.height hint.1 hint.2.1 hint.2.2.1 hint.2.2.2
  have hl := live_destroyCurrent s hs q.handle
  rw [destroyCurrent_some s b hcb hs q.handle] at hl
  have hr := tick_replace plat q s b a hcb hs ha hok hd
  rw [e1, e2, e3, e4, e5] at hr
  exact ⟨hl, hr⟩

/-- Witness of C5: window `7` is framed, then window `8` with the same
rectangle takes the focus: destroy four, create four. -/
theorem C5_replace_destroys_then_creates_witness :
    (tick platOk (focus 8 ⟨100, 200, 500, 600⟩)
        (run platOk [focus 7 ⟨100, 200, 500, 600⟩] Tracker.init)).world.trace =
      (run platOk [focus 7 ⟨100, 200, 500, 600⟩] Tracker.init).world.trace ++
        [Call.GetForegroundWindow 8, Call.DestroyWindow 1000, Call.DestroyWindow 1001,
         Call.DestroyWindow 1002, Call.DestroyWindow 1003,
         Call.CreateWindowExW 95 195 410 5 1004, Call.CreateWindowExW 95 600 410 5 1005,
         Call.CreateWindowExW 95 200 5 400 1006, Call.CreateWindowExW 500 200 5 400 1007,
         Call.Sleep 100] :=
  congrArg (fun s => s.world.trace)
    ((C5_replace_destroys_then_creates platOk (focus 8 ⟨100, 200, 500, 600⟩)
      (run platOk [focus 7 ⟨100, 200, 500, 600⟩] Tracker.init)
      ⟨1000, 1001, 1002, 1003⟩ ⟨8, 100, 200, 400, 400, true⟩
      (by decide) (run_noPartial platOk _ _ init_noPartial) (by decide) (by decide) rfl
      (Or.inl (by decide))).2.2 (by decide) (by decide) (by decide) (by decide))

/-- C6: steady state is a no-op.  If two successive ticks observe the same
foreground window with the same rectangle and the first ended with a border
set installed, the second tick only queries and sleeps: it issues no creation
and no destroy, and leaves the tracker variables and the live windows
unchanged. -/
theorem C6_steady_state_noop (plat : Nat → CreateAnswers) (q1 q2 : QueryAnswers)
    (s : Tracker)
    (hok : (getActiveWindowRect q1 s.world).1.ok = true)
    (hsame : (getActiveWindowRect q2 (tick plat q1 s).world).1
      = (getActiveWindowRect q1 s.world).1)
    (hcb : (tick plat q1 s).currentBorders ≠ none) :
    tick plat q2 (tick plat q1 s) =
      { tick plat q1 s with
        world := { trace := (tick plat q1 s).world.trace ++
                     [Call.GetForegroundWindow q2.handle, Call.Sleep 100],
                   nCreate := (tick plat q1 s).world.nCreate } } ∧
    creations [Call.GetForegroundWindow q2.handle, Call.Sleep 100] = [] ∧
    destroys [Call.GetForegroundWindow q2.handle, Call.Sleep 100] = [] ∧
    live (tick plat q2 (tick plat q1 s)).world.trace = live (tick plat q1 s).world.trace := by
  obtain ⟨e1, e2, e3, e4, e5⟩ := tick_installed_prev plat q1 s hok hcb
  rw [← hsame] at e1 e2 e3 e4 e5 hok
  have ht := tick_same plat q2 (tick plat q1 s) hok e1 e2 e3 e4 e5
  have ht2 : tick plat q2 (tick plat q1 s) =
      { tick plat q1 s with
        world := { trace := (tick plat q1 s).world.trace ++
                     [Call.GetForegroundWindow q2.handle, Call.Sleep 100],
                   nCreate := (tick plat q1 s).world.nCreate } } := by
    rw [ht]; simp [World.call]
  refine ⟨ht2, rfl, rfl, ?_⟩
  rw [ht2]
  simp [live_append, liveStep]

/-- Witness of C6: window `7` with rectangle `(100, 200, 500, 600)` on two
successive ticks. -/
theorem C6_steady_state_noop_witness :
    (tick platOk (focus 7 ⟨100, 200, 500, 600⟩)
        (tick platOk (focus 7 ⟨100, 200, 500, 600⟩) Tracker.init)).world.trace =
      (tick platOk (focus 7 ⟨100, 200, 500, 600⟩) Tracker.init).world.trace ++
        [Call.GetForegroundWindow 7, Call.Sleep 100] :=
  congrArg (fun s => s.world.trace)
    (C6_steady_state_noop platOk (focus 7 ⟨100, 200, 500, 600⟩)
      (focus 7 ⟨100, 200, 500, 600⟩) Tracker.init (by decide) (by decide) (by decide)).1

/-- C7: no partial borders.  For every sequence of foreground-query answers
and every pattern of creation successes and failures, after every tick the
number of live overlays is 0 when no border set is current and 4 when one is
current (never 1, 2 or 3), and the four handles of a current border set are
non-zero and alive. -/
theorem C7_no_partial_borders (plat : Nat → CreateAnswers) (qs : List QueryAnswers) :
    ((run plat qs Tracker.init).currentBorders = none →
      (live (run plat qs Tracker.init).world.trace).length = 0) ∧
    (∀ b, (run plat qs Tracker.init).currentBorders = some b →
      (live (run plat qs Tracker.init).world.trace).length = 4
      ∧ b.top ∈ live (run plat qs Tracker.init).world.trace
      ∧ b.bottom ∈ live (run plat qs Tracker.init).world.trace
      ∧ b.left ∈ live (run plat qs Tracker.init).world.trace
      ∧ b.right ∈ live (run plat qs Tracker.init).world.trace
      ∧ b.top ≠ 0 ∧ b.bottom ≠ 0 ∧ b.left ≠ 0 ∧ b.right ≠ 0) ∧
    (live (run plat qs Tracker.init).world.trace).length ≠ 1 ∧
    (live (run plat qs Tracker.init).world.trace).length ≠ 2 ∧
    (live (run plat qs Tracker.init).world.trace).length ≠ 3 := by
  have hinv := run_noPartial plat qs Tracker.init init_noPartial
  unfold Tracker.noPartial at hinv
  cases hcb : (run plat qs Tracker.init).currentBorders with
  | none =>
    rw [hcb] at hinv
    simp only at hinv
    simp [hinv]
  | some b =>
    rw [hcb] at hinv
    obtain ⟨hl, h1, h2, h3, h4⟩ := hinv
    simp [hl, h1, h2, h3, h4]

/-- C8: on a border set with four non-zero handles the first `Destroy` issues
one `DestroyWindow` per handle, in the order top, bottom, left, right, and sets
the four fields to `0`; any number of further `Destroy` calls issue nothing
and leave the border set unchanged.  `destroyWindow` issues no call for a
handle equal to `0` and exactly one `DestroyWindow`, in argument order, for
each non-zero handle. -/
theorem C8_Destroy_idempotent (b : BorderSet) (w : World) (handles : List Handle) (m : Nat)
    (h1 : b.top ≠ 0) (h2 : b.bottom ≠ 0) (h3 : b.left ≠ 0) (h4 : b.right ≠ 0) :
    b.Destroy w =
      ({ top := 0, bottom := 0, left := 0, right := 0 },
       { trace := w.trace ++ [Call.DestroyWindow b.top, Call.DestroyWindow b.bottom,
                              Call.DestroyWindow b.left, Call.DestroyWindow b.right],
         nCreate := w.nCreate }) ∧
    Nat.iterate (fun p : BorderSet × World => p.1.Destroy p.2) m (b.Destroy w)
      = b.Destroy w ∧
    destroyWindow handles w =
      { trace := w.trace ++ (handles.filter (fun h => h ≠ 0)).map Call.DestroyWindow,
        nCreate := w.nCreate } := by
  refine ⟨Destroy_eq b w h1 h2 h3 h4, ?_, destroyWindow_eq handles w⟩
  apply Function.iterate_fixed
  simp [BorderSet.Destroy, destroyWindow_eq]

/-- Witness of C8: the border set `(1000, 1001, 1002, 1003)`, destroyed once
and then three more times; `destroyWindow(0, 5, 0, 6)` calls `DestroyWindow`
for `5` and `6` only. -/
theorem C8_Destroy_idempotent_witness :
    Nat.iterate (fun p : BorderSet × World => p.1.Destroy p.2) 3
        (BorderSet.Destroy ⟨1000, 1001, 1002, 1003⟩ Tracker.init.world)
      = (⟨0, 0, 0, 0⟩,
         { trace := [Call.DestroyWindow 1000, Call.DestroyWindow 1001,
                     Call.DestroyWindow 1002, Call.DestroyWindow 1003],
           nCreate := 0 }) ∧
    destroyWindow [0, 5, 0, 6] Tracker.init.world =
      { trace := [Call.DestroyWindow 5, Call.DestroyWindow 6], nCreate := 0 } :=
  ⟨((C8_Destroy_idempotent ⟨1000, 1001, 1002, 1003⟩ Tracker.init.world [0, 5, 0, 6] 3
      (by decide) (by decide) (by decide) (by decide)).2.1).trans (by decide),
   ((C8_Destroy_idempotent ⟨1000, 1001, 1002, 1003⟩ Tracker.init.world [0, 5, 0, 6] 3
      (by decide) (by decide) (by decide) (by decide)).2.2).trans (by decide)⟩

/-- C9 (the code at the failing input): two ticks that report no foreground
window leave the trace `GetForegroundWindow, GetForegroundWindow`, with no
sleep between the two queries; and a tick whose border-set creation fails is
followed by the next query without a sleep.  Both paths leave the iteration by
`continue`, which skips `time.Sleep`. -/
theorem C9_continue_skips_sleep :
    (run platOk [noFocus, noFocus] Tracker.init).world.trace =
      [Call.GetForegroundWindow 0, Call.GetForegroundWindow 0] ∧
    (run (platFailAt 2) [focus 7 ⟨100, 200, 500, 600⟩, focus 7 ⟨100, 200, 500, 600⟩]
      Tracker.init).world.trace =
      [Call.GetForegroundWindow 7, Call.CreateWindowExW 95 195 410 5 1000,
       Call.CreateWindowExW 95 600 410 5 1001, Call.CreateWindowExW 95 200 5 400 1002,
       Call.DestroyWindow 1002, Call.DestroyWindow 1000, Call.DestroyWindow 1001,
       Call.GetForegroundWindow 7, Call.CreateWindowExW 95 195 410 5 1003,
       Call.CreateWindowExW 95 600 410 5 1004, Call.CreateWindowExW 95 200 5 400 1005,
       Call.CreateWindowExW 500 200 5 400 1006, Call.Sleep 100] := by
  refine ⟨by decide, by decide⟩

/-- C10 (counterexample): window `7` is framed by the overlays `1000..1003`;
the next query answers the top overlay `1000` with its rectangle
`(95, 195, 505, 200)`.  The tick does not treat this as none: it destroys the
border set, creates four overlays around the overlay's rectangle and records
`1000` as the last target. -/
theorem C10_self_tracking_counterexample :
    (run platOk [focus 7 ⟨100, 200, 500, 600⟩] Tracker.init).currentBorders
      = some ⟨1000, 1001, 1002, 1003⟩ ∧
    tick platOk (focus 1000 ⟨95, 195, 505, 200⟩)
        (run platOk [focus 7 ⟨100, 200, 500, 600⟩] Tracker.init)
      ≠ tick platOk noFocus (run platOk [focus 7 ⟨100, 200, 500, 600⟩] Tracker.init) ∧
    (tick platOk (focus 1000 ⟨95, 195, 505, 200⟩)
        (run platOk [focus 7 ⟨100, 200, 500, 600⟩] Tracker.init)).world.trace =
      (run platOk [focus 7 ⟨100, 200, 500, 600⟩] Tracker.init).world.trace ++
        [Call.GetForegroundWindow 1000, Call.DestroyWindow 1000, Call.DestroyWindow 1001,
         Call.DestroyWindow 1002, Call.DestroyWindow 1003,
         Call.CreateWindowExW 90 190 420 5 1004, Call.CreateWindowExW 90 200 420 5 1005,
         Call.CreateWindowExW 90 195 5 5 1006, Call.CreateWindowExW 505 195 5 5 1007,
         Call.Sleep 100] ∧
    (tick platOk (focus 1000 ⟨95, 195, 505, 200⟩)
        (run platOk [focus 7 ⟨100, 200, 500, 600⟩] Tracker.init)).prevHandle = 1000 ∧
    (tick platOk (focus 1000 ⟨95, 195, 505, 200⟩)
        (run platOk [focus 7 ⟨100, 200, 500, 600⟩] Tracker.init)).currentBorders
      = some ⟨1004, 1005, 1006, 1007⟩ := by
  refine ⟨by decide, by decide, by decide, by decide, by decide⟩

/-- C10 (amended): the tick has no self-tracking filter.  In a state holding a
live border set `b`, a foreground query that returns one of the four handles
of `b` (with a rectangle, and a handle other than `prevHandle`) is handled
like any other change of foreground window: the tick destroys the four
overlays of `b`, then requests overlays around the reported rectangle (at
least the top one), and when the four creations succeed it installs the new
set and records the overlay's handle and rectangle as the last target. -/
theorem C10_own_overlay_is_tracked (plat : Nat → CreateAnswers) (q : QueryAnswers)
    (s : Tracker) (b : BorderSet)
    (hcb : s.currentBorders = some b) (hs : s.noPartial) (hq : q.rect.wellTyped)
    (hown : q.handle = b.top ∨ q.handle = b.bottom ∨ q.handle = b.left
      ∨ q.handle = b.right)
    (hret : q.ret ≠ 0) (hne : q.handle ≠ s.prevHandle) :
    (∃ rest, (tick plat q s).world.trace =
        s.world.trace ++
          [Call.GetForegroundWindow q.handle, Call.DestroyWindow b.top,
           Call.DestroyWindow b.bottom, Call.DestroyWindow b.left,
           Call.DestroyWindow b.right] ++ rest
      ∧ creations rest ≠ []
      ∧ creations rest <+:
        [(q.rect.Left - THICKNESS, q.rect.Top - THICKNESS,
            wrapInt32 (q.rect.Right - q.rect.Left) + 2 * THICKNESS, THICKNESS),
         (q.rect.Left - THICKNESS, q.rect.Top + wrapInt32 (q.rect.Bottom - q.rect.Top),
            wrapInt32 (q.rect.Right - q.rect.Left) + 2 * THICKNESS, THICKNESS),
         (q.rect.Left - THICKNESS, q.rect.Top, THICKNESS,
            wrapInt32 (q.rect.Bottom - q.rect.Top)),
         (q.rect.Left + wrapInt32 (q.rect.Right - q.rect.Left), q.rect.Top, THICKNESS,
            wrapInt32 (q.rect.Bottom - q.rect.Top))]) ∧
    ((plat s.world.nCreate).succeeds → (plat (s.world.nCreate + 1)).succeeds →
      (plat (s.world.nCreate + 2)).succeeds → (plat (s.world.nCreate + 3)).succeeds →
      (tick plat q s).currentBorders = some
          { top := (plat s.world.nCreate).hwnd, bottom := (plat (s.world.nCreate + 1)).hwnd,
            left := (plat (s.world.nCreate + 2)).hwnd,
            right := (plat (s.world.nCreate + 3)).hwnd }
      ∧ (tick plat q s).prevHandle = q.handle
      ∧ (tick plat q s).prevX = q.rect.Left
      ∧ (tick plat q s).prevY = q.rect.Top
      ∧ (tick plat q s).prevWidth = wrapInt32 (q.rect.Right - q.rect.Left)
      ∧ (tick plat q s).prevHeight = wrapInt32 (q.rect.Bottom - q.rect.Top)) := by
  have hb : b.top ≠ 0 ∧ b.bottom ≠ 0 ∧ b.left ≠ 0 ∧ b.right ≠ 0 := by
    have := hs
    unfold Tracker.noPartial at this
    rw [hcb] at this
    exact this.2
  have hnz : q.handle ≠ 0 := by
    rcases hown with h | h | h | h <;> rw [h]
    · exact hb.1
    · exact hb.2.1
    · exact hb.2.2.1
    · exact hb.2.2.2
  have ha : (getActiveWindowRect q s.world).1 =
      ⟨q.handle, q.rect.Left, q.rect.Top, wrapInt32 (q.rect.Right - q.rect.Left),
        wrapInt32 (q.rect.Bottom - q.rect.Top), true⟩ := by
    simp [getActiveWindowRect, hnz, hret]
  have hint := getActiveWindowRect_isInt32 q s.world hq
  rw [ha] at hint
  obtain ⟨e1, e2, e3, e4, e5⟩ := newBorderSet_args _ _ _ _ hint.1 hint.2.1 hint.2.2.1 hint.2.2.2
  have hr := tick_replace plat q s b _ hcb hs ha rfl (Or.inl hne)
  simp only at e1 e2 e3 e4 e5 hr
  rw [e1, e2, e3, e4, e5] at hr
  refine ⟨hr.1, fun h0 h1 h2 h3 => ?_⟩
  rw [hr.2 h0 h1 h2 h3]
  exact ⟨rfl, rfl, rfl, rfl, rfl, rfl⟩

/-- Witness of C10 (amended): the top overlay `1000` of the border set framing
window `7` is reported as the foreground window. -/
theorem C10_own_overlay_is_tracked_witness :
    (tick platOk (focus 1000 ⟨95, 195, 505, 200⟩)
        (run platOk [focus 7 ⟨100, 200, 500, 600⟩] Tracker.init)).currentBorders
      = some ⟨1004, 1005, 1006, 1007⟩
    ∧ (tick platOk (focus 1000 ⟨95, 195, 505, 200⟩)
        (run platOk [focus 7 ⟨100, 200, 500, 600⟩] Tracker.init)).prevHandle = 1000 :=
  ⟨((C10_own_overlay_is_tracked platOk (focus 1000 ⟨95, 195, 505, 200⟩)
      (run platOk [focus 7 ⟨100, 200, 500, 600⟩] Tracker.init) ⟨1000, 1001, 1002, 1003⟩
      (by decide) (run_noPartial platOk _ _ init_noPartial) (by decide)
      (Or.inl (by decide)) (by decide) (by decide)).2
      (by decide) (by decide) (by decide) (by decide)).1,
   ((C10_own_overlay_is_tracked platOk (focus 1000 ⟨95, 195, 505, 200⟩)
      (run platOk [focus 7 ⟨100, 200, 500, 600⟩] Tracker.init) ⟨1000, 1001, 1002, 1003⟩
      (by decide) (run_noPartial platOk _ _ init_noPartial) (by decide)
      (Or.inl (by decide)) (by decide) (by decide)).2
      (by decide) (by decide) (by decide) (by decide)).2.1⟩

end WindowBorder
